import Mathlib

/-!
Verification development for the uxlaw upload-to-report pipeline.

The repository consists of a client image normalizer (canvas resize to a
maximum width of 1200px), a server endpoint `POST /api/analyze` that
validates the payload, calls an external vision model, sanitizes the
JSON reply and persists a report row, and a results renderer.

This file gives a shallow embedding of that code.  JSON values are
modelled by the inductive `Json`; JavaScript numbers (which include NaN
and the infinities) by `JsNum` with rationals standing in for finite
doubles.  JavaScript string builtins (`trim`, `slice`, `startsWith`,
`length`) are embedded as functions on the character list of a `String`;
`length` therefore counts characters where JavaScript counts UTF-16 code
units, a divergence that is irrelevant for the inputs considered here.
-/

/-- A JSON value as produced by `JSON.parse`. -/
inductive Json where
  | null
  | bool (b : Bool)
  | num (q : ℚ)
  | str (s : String)
  | arr (xs : List Json)
  | obj (kvs : List (String × Json))

/-- A JavaScript number: a finite value (modelled as a rational, which
covers every IEEE double the model can return), an infinity, or NaN. -/
inductive JsNum where
  | finite (q : ℚ)
  | posInf
  | negInf
  | nan
deriving DecidableEq

/-- `Math.min` on two JavaScript numbers: NaN propagates. -/
def jsMin : JsNum → JsNum → JsNum
  | .nan, _ => .nan
  | _, .nan => .nan
  | .posInf, b => b
  | a, .posInf => a
  | .negInf, _ => .negInf
  | _, .negInf => .negInf
  | .finite a, .finite b => .finite (if a ≤ b then a else b)

/-- `Math.max` on two JavaScript numbers: NaN propagates. -/
def jsMax : JsNum → JsNum → JsNum
  | .nan, _ => .nan
  | _, .nan => .nan
  | .negInf, b => b
  | a, .negInf => a
  | .posInf, _ => .posInf
  | _, .posInf => .posInf
  | .finite a, .finite b => .finite (if a ≤ b then b else a)

/-- `clamp` from the analyze route: `Math.max(min, Math.min(max, n))`. -/
def clamp (n min max : JsNum) : JsNum := jsMax min (jsMin max n)

/-- JavaScript `String.prototype.trim`, over the character list. -/
def jsTrim (s : String) : String :=
  ⟨((s.data.dropWhile Char.isWhitespace).reverse.dropWhile Char.isWhitespace).reverse⟩

/-- JavaScript `String.prototype.slice(0, n)`, over the character list. -/
def jsSliceStr (s : String) (n : ℕ) : String := ⟨s.data.take n⟩

/-- JavaScript `String.prototype.length`, modelled as character count. -/
def jsLength (s : String) : ℕ := s.data.length

/-- JavaScript `String.prototype.startsWith`. -/
def jsStartsWith (s pre : String) : Bool := pre.data.isPrefixOf s.data

/-- Value of a digit character list. -/
def natOfDigits (cs : List Char) : ℕ := cs.foldl (fun n c => 10 * n + (c.toNat - 48)) 0

/-- The decimal fragment of the `Number(string)` grammar: digits with an
optional fraction part, at least one digit overall. -/
def parseUnsignedDec (cs : List Char) : Option ℚ :=
  let intPart := cs.takeWhile Char.isDigit
  match cs.dropWhile Char.isDigit with
  | [] => if intPart.isEmpty then none else some (mkRat (natOfDigits intPart) 1)
  | '.' :: frac =>
      if frac.all Char.isDigit && !(intPart.isEmpty && frac.isEmpty) then
        some (mkRat (natOfDigits intPart * 10 ^ frac.length + natOfDigits frac) (10 ^ frac.length))
      else none
  | _ => none

/-- JavaScript `Number(string)`: trimmed; empty gives 0; Infinity
literals give infinities; otherwise an optionally signed decimal
literal, and anything else is NaN.  (Hexadecimal and exponent literals
are not modelled.) -/
def strToNumber (s : String) : JsNum :=
  let t := jsTrim s
  if t = "" then .finite 0
  else if t = "Infinity" || t = "+Infinity" then .posInf
  else if t = "-Infinity" then .negInf
  else
    match t.data with
    | '-' :: rest =>
        match parseUnsignedDec rest with
        | some q => .finite (-q)
        | none => .nan
    | '+' :: rest =>
        match parseUnsignedDec rest with
        | some q => .finite q
        | none => .nan
    | cs =>
        match parseUnsignedDec cs with
        | some q => .finite q
        | none => .nan

/-- Coercion of a single array element under `Number([x])`, which in
JavaScript goes through the string form of `x` (one nesting level is
modelled). -/
def singleElemToNumber : Json → JsNum
  | .null => .finite 0
  | .num q => .finite q
  | .str s => strToNumber s
  | _ => .nan

/-- JavaScript `Number(x)` on a JSON value: numbers pass through,
booleans give 0 or 1, null gives 0, strings are parsed, an empty array
gives 0 and a one-element array coerces its element, and every other
array or object gives NaN. -/
def toNumber : Json → JsNum
  | .null => .finite 0
  | .bool b => .finite (if b then 1 else 0)
  | .num q => .finite q
  | .str s => strToNumber s
  | .arr [] => .finite 0
  | .arr [x] => singleElemToNumber x
  | .arr _ => .nan
  | .obj _ => .nan

/-- Property lookup in a JavaScript object given as an entry list (first
binding wins, as entry lists built below keep keys unique). -/
def jsLookup : List (String × Json) → String → Option Json
  | [], _ => none
  | (k, v) :: rest, key => if k = key then some v else jsLookup rest key

/-- Property access `j.key`: defined on objects, `undefined` (here
`none`) on everything else.  (Access on `null` throws in JavaScript;
the endpoint embedding handles that case separately.) -/
def getField : Json → String → Option Json
  | .obj kvs, key => jsLookup kvs key
  | _, _ => none

/-- `parsed.score ?? 0`: nullish coalescing of the score field. -/
def scoreInput (parsed : Json) : Json :=
  match getField parsed "score" with
  | none => .num 0
  | some .null => .num 0
  | some v => v

/-- `clamp(Number(parsed.score ?? 0), 0, 100)` from the analyze route. -/
def sanitizeScore (parsed : Json) : JsNum :=
  clamp (toNumber (scoreInput parsed)) (.finite 0) (.finite 100)

/-- `Array.isArray(parsed.topFixes) ? parsed.topFixes.slice(0, 3) : []`. -/
def sanitizeTopFixes (parsed : Json) : List Json :=
  match getField parsed "topFixes" with
  | some (.arr xs) => xs.take 3
  | _ => []

/-- `typeof parsed.narrative === "string" ? parsed.narrative.slice(0, 1500) : ""`. -/
def sanitizeNarrative (parsed : Json) : String :=
  match getField parsed "narrative" with
  | some (.str s) => jsSliceStr s 1500
  | _ => ""

/-- `parsed.laws && typeof parsed.laws === "object" ? parsed.laws : {}`:
null is falsy, objects and arrays both have typeof "object", everything
else is replaced by the empty object. -/
def sanitizeLaws (parsed : Json) : Json :=
  match getField parsed "laws" with
  | some (.obj kvs) => .obj kvs
  | some (.arr xs) => .arr xs
  | _ => .obj []

/-- Own enumerable entries of a JSON value as used by object spread:
objects give their entries, arrays give index-keyed entries. -/
def jsEntries : Json → List (String × Json)
  | .obj kvs => kvs
  | .arr xs => xs.enum.map (fun p => (toString p.1, p.2))
  | _ => []

/-- Adding one property to a JavaScript object under construction: an
existing key keeps its position but takes the new value, a new key is
appended. -/
def insertEntry (kvs : List (String × Json)) (kv : String × Json) : List (String × Json) :=
  if kvs.any (fun p => decide (p.1 = kv.1)) then
    kvs.map (fun p => if p.1 = kv.1 then (p.1, kv.2) else p)
  else kvs ++ [kv]

/-- `const lawsToStore = { narrative, ...laws }` from the analyze route:
the sanitized narrative first, then the entries of the kept laws value
spread over it (so a `narrative` key inside `laws` overrides the
sanitized narrative). -/
def lawsToStore (parsed : Json) : List (String × Json) :=
  (jsEntries (sanitizeLaws parsed)).foldl insertEntry
    [("narrative", .str (sanitizeNarrative parsed))]

/-- One persisted `Report` row (the `prisma.report.create` data). -/
structure Row where
  imageDataUrl : String
  goal : String
  navItems : ℤ
  ctaCount : ℤ
  formFields : ℤ
  score : JsNum
  topFixes : List Json
  laws : List (String × Json)

/-- The data given to `prisma.report.create` by the analyze route. -/
def buildRow (imageDataUrl : String) (parsed : Json) : Row :=
  { imageDataUrl := imageDataUrl
    goal := ""
    navItems := 0
    ctaCount := 0
    formFields := 0
    score := sanitizeScore parsed
    topFixes := sanitizeTopFixes parsed
    laws := lawsToStore parsed }

/-- The request body after the `as Payload` cast: the TypeScript type
declares a single `imageDataUrl : string` field, present or not at
runtime. -/
structure Payload where
  imageDataUrl : Option String

/-- Outcome of the model call as seen by the route:
`completion.choices?.[0]?.message?.content` is either absent or some
text, and `JSON.parse` of its trimmed form (supplied here as the
`parsed` component, since `JSON.parse` is a runtime builtin) either
yields a JSON value or throws. -/
inductive ModelReply where
  | noContent
  | content (text : String) (parsed : Option Json)

/-- An HTTP response of the analyze route: status plus the `error`,
`raw` and `reportId` body fields that the route ever sets. -/
structure HttpResponse where
  status : ℕ
  error : Option String
  raw : Option String
  reportId : Option ℕ

/-- `MAX_IMAGE_DATAURL_CHARS` from the analyze route. -/
def MAX_IMAGE_DATAURL_CHARS : ℕ := 2000000

/-- The 400 response of the analyze route. -/
def err400 : HttpResponse :=
  ⟨400, some "Missing screenshot upload (imageDataUrl)", none, none⟩

/-- The 413 response of the analyze route. -/
def err413 : HttpResponse :=
  ⟨413, some "Screenshot is too large. Upload a smaller image (or compress it) and try again.",
    none, none⟩

/-- The 500 response for an empty model reply. -/
def err500empty : HttpResponse :=
  ⟨500, some "Model returned empty response", none, none⟩

/-- The analyze route `POST` handler.  Inputs are the configured API key
(`none` for unset), the parse outcome of the request body (`Except`
carries the thrown message when `req.json()` fails, which the top-level
catch turns into a 500), the model reply, and the report store (a list
of rows, a fresh id being the next index).  Output is the HTTP response
and the store after the request.  Branches follow the source order:
missing or empty API key, body parse failure, missing or falsy or
non-image-prefixed `imageDataUrl`, oversized payload, empty reply,
unparsable reply, then sanitize and persist.  A parsed reply that is
JSON `null` makes the property access `parsed.score` throw, which the
top-level catch also turns into a 500. -/
def POST (apiKey : Option String) (body : Except String Payload)
    (reply : ModelReply) (store : List Row) : HttpResponse × List Row :=
  match apiKey with
  | none => (⟨500, some "Missing OPENAI_API_KEY in .env", none, none⟩, store)
  | some key =>
    if key = "" then (⟨500, some "Missing OPENAI_API_KEY in .env", none, none⟩, store)
    else
      match body with
      | .error m =>
          (⟨500, some (if m = "" then "Internal server error" else m), none, none⟩, store)
      | .ok b =>
        match b.imageDataUrl with
        | none => (err400, store)
        | some url =>
          if jsStartsWith url "data:image/" = false then (err400, store)
          else if MAX_IMAGE_DATAURL_CHARS < jsLength url then (err413, store)
          else
            match reply with
            | .noContent => (err500empty, store)
            | .content text parsed =>
              let raw := jsTrim text
              if raw = "" then (err500empty, store)
              else
                match parsed with
                | none =>
                    (⟨500, some "Model did not return valid JSON", some raw, none⟩, store)
                | some .null =>
                    (⟨500, some "Cannot read properties of null", none, none⟩, store)
                | some p =>
                    (⟨200, none, none, some store.length⟩, store ++ [buildRow url p])

/-- `prisma.report.create`: append the row, return its identifier
(modelled as the row index) together with the new store. -/
def createReport (store : List Row) (row : Row) : ℕ × List Row :=
  (store.length, store ++ [row])

/-- `prisma.report.findUnique({ where: { id } })`. -/
def findUnique (store : List Row) (id : ℕ) : Option Row := store[id]?

/-- The severity tag styling of the results page. -/
structure SeverityStyle where
  borderColor : String
  background : String
  color : String
deriving DecidableEq

/-- `severityStyle` from the results page (and its identical copy in
`DraggableBottomSheet`): High and Medium have dedicated palettes, Low
shares the `default` branch, so every other string falls through to the
Low styling. -/
def severityStyle (sev : String) : SeverityStyle :=
  if sev = "High" then ⟨"#ff6b6b", "#2a1a1a", "#ff8a8a"⟩
  else if sev = "Medium" then ⟨"#ffd93d", "#2a2515", "#ffed4e"⟩
  else ⟨"#666", "#1a1a1a", "#b0b0b0"⟩

/-- The top-fixes card: a nonempty list renders its items in order, an
empty list renders the placeholder item. -/
inductive FixesBlock where
  | fixes (items : List Json)
  | noIssues

/-- The data the results page extracts from a loaded row. -/
structure RenderedReport where
  score : JsNum
  narrative : String
  fixesBlock : FixesBlock
  lawCards : List (String × Json)

/-- The narrative extraction of the results page:
`typeof lawsAll.narrative === "string" ? lawsAll.narrative : ""`. -/
def renderNarrative (laws : List (String × Json)) : String :=
  match jsLookup laws "narrative" with
  | some (.str s) => s
  | _ => ""

/-- Rendering one row on the results page: the score as stored, the
narrative from the reserved key of the laws JSON, the top fixes (with
the no-issues placeholder when empty), and the law entries with the
narrative key removed, rebuilt into an object (`Object.fromEntries`,
hence deduplicated with last value winning) and capped at three cards. -/
def renderReport (row : Row) : RenderedReport :=
  { score := row.score
    narrative := renderNarrative row.laws
    fixesBlock := if row.topFixes.isEmpty then .noIssues else .fixes row.topFixes
    lawCards :=
      ((row.laws.filter (fun kv => decide (kv.1 ≠ "narrative"))).foldl insertEntry []).take 3 }

/-- A rendered results page: either the not-found view or the report
view. -/
inductive ResultsView where
  | notFound
  | report (r : RenderedReport)

/-- `ResultsPage`: load the row by identifier; render the not-found view
when there is none, the report view otherwise. -/
def ResultsPage (store : List Row) (id : ℕ) : ResultsView :=
  match findUnique store id with
  | none => .notFound
  | some row => .report (renderReport row)

/-- Outcome of the `fetch` to `/api/analyze` as seen by a client:
a success response carrying a report id, a non-success response whose
body may carry an error message, or a thrown network error whose
message may be absent. -/
inductive FetchOutcome where
  | ok (reportId : String)
  | httpError (errMsg : Option String)
  | networkError (msg : Option String)

/-- JavaScript `a || b` for an optional message against a default:
a missing or empty message falls back to the default. -/
def jsOr (m : Option String) (d : String) : String :=
  match m with
  | some s => if s = "" then d else s
  | none => d

/-- Client component state shared by the two page-level submitters. -/
structure PageState where
  imagePreview : Option String
  isRunning : Bool
  error : Option String
  navigation : Option String

namespace AnalyzePage

/-- `runAnalysis` of the Analyze page: guarded on a present preview and
no request in flight; clears the error, sets the in-flight flag, then
on success navigates, on a non-ok response or a thrown error records a
message; the `finally` block clears the in-flight flag on every path. -/
def runAnalysis (outcome : FetchOutcome) (s : PageState) : PageState :=
  if s.imagePreview = none ∨ s.isRunning then s
  else
    let s1 := { s with error := none, isRunning := true }
    let s2 :=
      match outcome with
      | .ok rid => { s1 with navigation := some ("/results/" ++ rid) }
      | .httpError m => { s1 with error := some (jsOr m "Analysis failed") }
      | .networkError m => { s1 with error := some (jsOr m "Network error") }
    { s2 with isRunning := false }

end AnalyzePage

namespace HomePage

/-- The `analyze` closure of the home page effect: guarded the same way,
but with no `finally` — the in-flight flag is cleared on the non-ok and
thrown paths only, while the success path navigates with the flag still
set. -/
def analyze (outcome : FetchOutcome) (s : PageState) : PageState :=
  if s.imagePreview = none ∨ s.isRunning then s
  else
    let s1 := { s with error := none, isRunning := true }
    match outcome with
    | .ok rid => { s1 with navigation := some ("/results/" ++ rid) }
    | .httpError m => { s1 with error := some (jsOr m "Analysis failed"), isRunning := false }
    | .networkError m => { s1 with error := some (jsOr m "Network error"), isRunning := false }

end HomePage

/-- State of the `UploadButton` component: its in-flight flag, the last
`alert` text, and the navigation target of `router.push`. -/
structure UploadState where
  isRunning : Bool
  alert : Option String
  navigation : Option String

namespace UploadButton

/-- `runAnalysis` of `UploadButton`: unguarded; sets the in-flight flag,
then on success navigates (flag left set), on a non-ok response or a
thrown error raises an alert and clears the flag. -/
def runAnalysis (outcome : FetchOutcome) (s : UploadState) : UploadState :=
  let s1 := { s with isRunning := true }
  match outcome with
  | .ok rid => { s1 with navigation := some ("/results/" ++ rid) }
  | .httpError m => { s1 with alert := some (jsOr m "Analysis failed"), isRunning := false }
  | .networkError m => { s1 with alert := some (jsOr m "Network error"), isRunning := false }

end UploadButton

/-- `MAX_W` of the image upload handler. -/
def MAX_W : ℚ := 1200

/-- `Math.round`: round half up. -/
def jsRound (q : ℚ) : ℤ := ⌊q + 1 / 2⌋

/-- `const scale = Math.min(1, MAX_W / img.width)` of the image upload
handler (all three copies are identical). -/
def scale (width : ℕ) : ℚ := min 1 (MAX_W / width)

/-- `const w = Math.round(img.width * scale)`. -/
def outWidth (width : ℕ) : ℤ := jsRound (width * scale width)

/-! ### Helper lemmas about object construction and lookup -/

theorem jsLookup_map_update (l : List (String × Json)) (kv : String × Json) (k : String)
    (h : kv.1 ≠ k) :
    jsLookup (l.map fun p => if p.1 = kv.1 then (p.1, kv.2) else p) k = jsLookup l k := by
  induction l with
  | nil => rfl
  | cons a rest ih =>
    simp only [List.map_cons]
    by_cases hb : a.1 = kv.1
    · have hak : a.1 ≠ k := fun hh => h (hb ▸ hh)
      rw [if_pos hb]
      simp [jsLookup, hak, ih]
    · rw [if_neg hb]
      simp [jsLookup, ih]

theorem jsLookup_append_single (acc : List (String × Json)) (kv : String × Json) (k : String)
    (h : kv.1 ≠ k) : jsLookup (acc ++ [kv]) k = jsLookup acc k := by
  induction acc with
  | nil => simp [jsLookup, h]
  | cons a rest ih =>
    by_cases hak : a.1 = k <;> simp [jsLookup, hak, ih]

theorem jsLookup_insertEntry_ne (acc : List (String × Json)) (kv : String × Json) (k : String)
    (h : kv.1 ≠ k) : jsLookup (insertEntry acc kv) k = jsLookup acc k := by
  unfold insertEntry
  split
  · exact jsLookup_map_update acc kv k h
  · exact jsLookup_append_single acc kv k h

theorem jsLookup_foldl_insert (l : List (String × Json)) (acc : List (String × Json))
    (k : String) (h : ∀ kv ∈ l, kv.1 ≠ k) :
    jsLookup (l.foldl insertEntry acc) k = jsLookup acc k := by
  induction l generalizing acc with
  | nil => rfl
  | cons a rest ih =>
    rw [List.foldl_cons, ih (insertEntry acc a) (fun kv hkv => h kv (List.mem_cons_of_mem a hkv)),
      jsLookup_insertEntry_ne acc a k (h a (List.mem_cons_self a rest))]

theorem insertEntry_new (acc : List (String × Json)) (kv : String × Json)
    (h : ∀ p ∈ acc, p.1 ≠ kv.1) : insertEntry acc kv = acc ++ [kv] := by
  unfold insertEntry
  have hfalse : acc.any (fun p => decide (p.1 = kv.1)) = false := by
    simp only [List.any_eq_false, decide_eq_true_eq]
    intro p hp
    exact h p hp
  simp [hfalse]

theorem foldl_insert_append (l : List (String × Json)) (acc : List (String × Json))
    (hdisj : ∀ p ∈ acc, ∀ q ∈ l, p.1 ≠ q.1) (hnodup : (l.map Prod.fst).Nodup) :
    l.foldl insertEntry acc = acc ++ l := by
  induction l generalizing acc with
  | nil => simp
  | cons a rest ih =>
    rw [List.foldl_cons, insertEntry_new acc a (fun p hp => hdisj p hp a (List.mem_cons_self a rest))]
    rw [List.map_cons, List.nodup_cons] at hnodup
    rw [ih (acc ++ [a]) ?_ hnodup.2]
    · simp
    · intro p hp q hq
      rcases List.mem_append.1 hp with hp | hp
      · exact hdisj p hp q (List.mem_cons_of_mem a hq)
      · rcases List.mem_singleton.1 hp with rfl
        intro hcontra
        exact hnodup.1 (hcontra ▸ List.mem_map_of_mem Prod.fst hq)

theorem jsLookup_none_forall (l : List (String × Json)) (k : String)
    (h : jsLookup l k = none) : ∀ kv ∈ l, kv.1 ≠ k := by
  induction l with
  | nil => intro kv hkv; cases hkv
  | cons a rest ih =>
    intro kv hkv
    by_cases hak : a.1 = k
    · simp [jsLookup, hak] at h
    · simp only [jsLookup, hak, if_false] at h
      rcases List.mem_cons.1 hkv with rfl | hkv
      · exact hak
      · exact ih h kv hkv

/-! ### Claim theorems -/

/-- Claim C10: the severity styling function is total over all strings,
and any severity other than High or Medium falls through to the Low
styling, so a law finding with an unexpected severity still renders. -/
theorem severity_default_total (sev : String) (h1 : sev ≠ "High") (h2 : sev ≠ "Medium") :
    severityStyle sev = ⟨"#666", "#1a1a1a", "#b0b0b0"⟩ := by
  simp [severityStyle, h1, h2]

/-- Witness for C10 at the severity value Critical. -/
theorem severity_default_total_witness :
    severityStyle "Critical" = ⟨"#666", "#1a1a1a", "#b0b0b0"⟩ :=
  severity_default_total "Critical" (by decide) (by decide)

/-- Claim C9: an identifier with no matching report renders the
not-found view (the page function is total, so nothing is thrown), and
a report whose stored topFixes list is empty renders the no-issues
placeholder instead of an empty list. -/
theorem results_not_found_and_placeholder :
    (∀ (store : List Row) (id : ℕ), findUnique store id = none →
        ResultsPage store id = ResultsView.notFound)
    ∧ (∀ (store : List Row) (id : ℕ) (row : Row), findUnique store id = some row →
        row.topFixes = [] →
        ResultsPage store id = ResultsView.report (renderReport row)
        ∧ (renderReport row).fixesBlock = FixesBlock.noIssues) := by
  refine ⟨?_, ?_⟩
  · intro store id h
    simp [ResultsPage, h]
  · intro store id row h hfx
    refine ⟨by simp [ResultsPage, h], ?_⟩
    simp [renderReport, hfx]

/-- Witness for C9: the empty store renders not-found at identifier 0,
and a stored row with no top fixes renders the placeholder. -/
theorem results_not_found_and_placeholder_witness :
    ResultsPage [] 0 = ResultsView.notFound
    ∧ (renderReport ⟨"data:image/png;base64,AA", "", 0, 0, 0, JsNum.finite 0, [],
        [("narrative", Json.str "")]⟩).fixesBlock = FixesBlock.noIssues :=
  ⟨results_not_found_and_placeholder.1 [] 0 rfl,
    (results_not_found_and_placeholder.2
      [⟨"data:image/png;base64,AA", "", 0, 0, 0, JsNum.finite 0, [],
        [("narrative", Json.str "")]⟩] 0
      ⟨"data:image/png;base64,AA", "", 0, 0, 0, JsNum.finite 0, [],
        [("narrative", Json.str "")]⟩ rfl rfl).2⟩

/-- Claim C8: for every decoded image width, the scale factor is
`min(1, 1200 / width)`, it never exceeds 1, and the output width never
exceeds 1200 pixels (images are never upscaled: the output width is the
minimum of the original width and 1200). -/
theorem scale_never_upscales (width : ℕ) (h : 0 < width) :
    scale width = min 1 (MAX_W / width)
    ∧ scale width ≤ 1
    ∧ outWidth width = min (width : ℤ) 1200 := by
  have hw0 : (0 : ℚ) < width := by exact_mod_cast h
  refine ⟨rfl, min_le_left _ _, ?_⟩
  by_cases hle : width ≤ 1200
  · have h1 : (1 : ℚ) ≤ MAX_W / width := by
      unfold MAX_W
      rw [one_le_div hw0]
      exact_mod_cast hle
    have hs : scale width = 1 := by
      unfold scale
      exact min_eq_left h1
    unfold outWidth jsRound
    rw [hs, mul_one,
      show ((width : ℚ) + 1 / 2) = ((width : ℤ) : ℚ) + 1 / 2 by push_cast; ring,
      Int.floor_int_add]
    have : ⌊(1 : ℚ) / 2⌋ = 0 := by norm_num
    rw [this, add_zero, min_eq_left (by exact_mod_cast hle)]
  · push_neg at hle
    have hlt : MAX_W / width < 1 := by
      unfold MAX_W
      rw [div_lt_one hw0]
      exact_mod_cast hle
    have hs : scale width = MAX_W / width := by
      unfold scale
      exact min_eq_right hlt.le
    unfold outWidth jsRound
    have hcanc : (width : ℚ) * (MAX_W / width) = MAX_W := by
      field_simp
    rw [hs, hcanc]
    unfold MAX_W
    rw [show ((1200 : ℚ) + 1 / 2) = ((1200 : ℤ) : ℚ) + 1 / 2 by norm_num,
      Int.floor_int_add]
    have : ⌊(1 : ℚ) / 2⌋ = 0 := by norm_num
    rw [this, add_zero, min_eq_right (by exact_mod_cast hle.le)]

/-- Witness for C8 at an original width of 2400 pixels. -/
theorem scale_never_upscales_witness :
    scale 2400 ≤ 1 ∧ outWidth 2400 = min (2400 : ℤ) 1200 :=
  ⟨(scale_never_upscales 2400 (by norm_num)).2.1,
    (scale_never_upscales 2400 (by norm_num)).2.2⟩

/-- Counterexample for C6: on a success response the home page
submitter navigates without clearing the in-flight flag, so the flag is
not cleared on every exit path. -/
theorem inflight_not_cleared_cex :
    (HomePage.analyze (FetchOutcome.ok "r1")
      ⟨some "data:image/png;base64,AA", false, none, none⟩).isRunning = true := rfl

/-- Claim C6 (amended): the Analyze page submitter clears the in-flight
flag on every exit path (its cleanup runs in a finally block), while
the HomePage and UploadButton submitters clear it on non-success
responses and network failures but leave it set on a success response,
where the client navigates away. -/
theorem inflight_flag_behaviour :
    (∀ (o : FetchOutcome) (s : PageState), s.imagePreview ≠ none → s.isRunning = false →
        (AnalyzePage.runAnalysis o s).isRunning = false)
    ∧ (∀ (m : Option String) (s : PageState), s.imagePreview ≠ none → s.isRunning = false →
        (HomePage.analyze (FetchOutcome.httpError m) s).isRunning = false
        ∧ (HomePage.analyze (FetchOutcome.networkError m) s).isRunning = false)
    ∧ (∀ (rid : String) (s : PageState), s.imagePreview ≠ none → s.isRunning = false →
        (HomePage.analyze (FetchOutcome.ok rid) s).isRunning = true)
    ∧ (∀ (m : Option String) (s : UploadState),
        (UploadButton.runAnalysis (FetchOutcome.httpError m) s).isRunning = false
        ∧ (UploadButton.runAnalysis (FetchOutcome.networkError m) s).isRunning = false)
    ∧ (∀ (rid : String) (s : UploadState),
        (UploadButton.runAnalysis (FetchOutcome.ok rid) s).isRunning = true) := by
  refine ⟨?_, ?_, ?_, ?_, ?_⟩
  · intro o s h1 h2
    cases o <;> simp [AnalyzePage.runAnalysis, h1, h2]
  · intro m s h1 h2
    exact ⟨by simp [HomePage.analyze, h1, h2], by simp [HomePage.analyze, h1, h2]⟩
  · intro rid s h1 h2
    simp [HomePage.analyze, h1, h2]
  · intro m s
    exact ⟨rfl, rfl⟩
  · intro rid s
    rfl

/-- Witness for C6 at concrete component states and fetch outcomes. -/
theorem inflight_flag_behaviour_witness :
    (AnalyzePage.runAnalysis (FetchOutcome.ok "r1")
      ⟨some "data:image/png;base64,AA", false, none, none⟩).isRunning = false
    ∧ (HomePage.analyze (FetchOutcome.httpError none)
      ⟨some "data:image/png;base64,AA", false, none, none⟩).isRunning = false
    ∧ (HomePage.analyze (FetchOutcome.ok "r1")
      ⟨some "data:image/png;base64,AA", false, none, none⟩).isRunning = true
    ∧ (UploadButton.runAnalysis (FetchOutcome.networkError none)
      ⟨false, none, none⟩).isRunning = false
    ∧ (UploadButton.runAnalysis (FetchOutcome.ok "r1") ⟨false, none, none⟩).isRunning = true :=
  ⟨inflight_flag_behaviour.1 (FetchOutcome.ok "r1") _ (by simp) rfl,
    (inflight_flag_behaviour.2.1 none _ (by simp) rfl).1,
    inflight_flag_behaviour.2.2.1 "r1" _ (by simp) rfl,
    (inflight_flag_behaviour.2.2.2.1 none _).2,
    inflight_flag_behaviour.2.2.2.2 "r1" _⟩

/-- Counterexample for C1: a reply score of 50.5 is clamped to itself,
so the sanitized score is not an integer. -/
theorem score_not_integer_cex :
    sanitizeScore (Json.obj [("score", Json.num (mkRat 101 2))]) = JsNum.finite (mkRat 101 2)
    ∧ ¬ ∃ n : ℤ, sanitizeScore (Json.obj [("score", Json.num (mkRat 101 2))])
        = JsNum.finite (n : ℚ) := by
  have hval : sanitizeScore (Json.obj [("score", Json.num (mkRat 101 2))])
      = JsNum.finite (mkRat 101 2) := by decide
  refine ⟨hval, ?_⟩
  rintro ⟨n, hn⟩
  rw [hval] at hn
  have hq : mkRat 101 2 = (n : ℚ) := by injection hn
  have hden : (mkRat 101 2).den = 1 := by rw [hq]; exact Rat.den_intCast n
  have : (mkRat 101 2).den = 2 := by decide
  omega

/-- Claim C1 (amended): the sanitized score is the JS number coercion of
the reply score (0 when the field is missing or null) clamped to
[0,100]; whenever the coercion is a number, including the infinities,
the result is a finite value in [0,100] (not necessarily an integer); a
missing or null score gives exactly 0; and a score whose coercion is
NaN (for example a non-numeric string) propagates NaN instead of
coercing to 0. -/
theorem score_clamped_range (parsed : Json) :
    (sanitizeScore parsed = JsNum.nan
      ∨ ∃ q : ℚ, sanitizeScore parsed = JsNum.finite q ∧ 0 ≤ q ∧ q ≤ 100)
    ∧ (toNumber (scoreInput parsed) = JsNum.nan → sanitizeScore parsed = JsNum.nan)
    ∧ (getField parsed "score" = none → sanitizeScore parsed = JsNum.finite 0) := by
  refine ⟨?_, ?_, ?_⟩
  · cases h : toNumber (scoreInput parsed) with
    | finite q =>
      right
      simp only [sanitizeScore, clamp, h, jsMin, jsMax]
      by_cases h1 : (100 : ℚ) ≤ q
      · simp only [if_pos h1]
        by_cases h2 : (0 : ℚ) ≤ 100
        · exact ⟨100, by simp [if_pos h2], by norm_num, by norm_num⟩
        · exact absurd (by norm_num) h2
      · simp only [if_neg h1]
        by_cases h2 : (0 : ℚ) ≤ q
        · exact ⟨q, by simp [if_pos h2], h2, (not_le.1 h1).le⟩
        · exact ⟨0, by simp [if_neg h2], le_refl 0, by norm_num⟩
    | posInf =>
      right
      refine ⟨100, ?_, by norm_num, by norm_num⟩
      simp only [sanitizeScore, clamp, h, jsMin, jsMax]
      norm_num
    | negInf =>
      right
      refine ⟨0, ?_, le_refl 0, by norm_num⟩
      simp only [sanitizeScore, clamp, h, jsMin, jsMax]
    | nan =>
      left
      simp [sanitizeScore, clamp, h, jsMin, jsMax]
  · intro h
    simp [sanitizeScore, clamp, h, jsMin, jsMax]
  · intro h
    simp only [sanitizeScore, scoreInput, h, toNumber, clamp, jsMin, jsMax]
    norm_num

/-- Witness for C1: a non-numeric string score propagates NaN, and a
missing score field gives 0. -/
theorem score_clamped_range_witness :
    sanitizeScore (Json.obj [("score", Json.str "abc")]) = JsNum.nan
    ∧ sanitizeScore (Json.obj []) = JsNum.finite 0 :=
  ⟨(score_clamped_range (Json.obj [("score", Json.str "abc")])).2.1 (by decide),
    (score_clamped_range (Json.obj [])).2.2 rfl⟩

/-- A 1501 character narrative used in the C2 counterexample. -/
def longNarr : String := ⟨List.replicate 1501 'a'⟩

/-- Counterexample for C2: when the laws mapping of the reply itself
carries a narrative entry, the object spread lets it override the
sanitized narrative, so the value persisted under the narrative key can
exceed 1500 characters. -/
theorem narrative_overflow_cex :
    renderNarrative (lawsToStore (Json.obj
      [("narrative", Json.str "hi"),
        ("laws", Json.obj [("narrative", Json.str longNarr)])])) = longNarr
    ∧ 1500 < jsLength longNarr := by
  refine ⟨rfl, ?_⟩
  show 1500 < (List.replicate 1501 'a').length
  rw [List.length_replicate]
  norm_num

/-- Claim C2 (amended): the sanitized narrative is kept only if the
reply narrative field is a string, truncated to 1500 characters, and is
empty otherwise, so it always has length at most 1500; it is the value
persisted under the reserved narrative key provided the kept laws value
contributes no narrative entry of its own — such an entry overrides the
sanitized narrative in the stored mapping. -/
theorem narrative_truncation (parsed : Json) :
    jsLength (sanitizeNarrative parsed) ≤ 1500
    ∧ (∀ s, getField parsed "narrative" = some (Json.str s) →
        sanitizeNarrative parsed = jsSliceStr s 1500)
    ∧ (jsLookup (jsEntries (sanitizeLaws parsed)) "narrative" = none →
        jsLookup (lawsToStore parsed) "narrative"
          = some (Json.str (sanitizeNarrative parsed))) := by
  refine ⟨?_, ?_, ?_⟩
  · unfold sanitizeNarrative
    cases hg : getField parsed "narrative" with
    | none => simp [jsLength]
    | some v =>
      cases v <;> simp [jsLength, jsSliceStr]
  · intro s hs
    simp [sanitizeNarrative, hs]
  · intro h
    show jsLookup ((jsEntries (sanitizeLaws parsed)).foldl insertEntry
      [("narrative", Json.str (sanitizeNarrative parsed))]) "narrative" = _
    rw [jsLookup_foldl_insert _ _ _ (jsLookup_none_forall _ _ h)]
    simp [jsLookup]

/-- Witness for C2 at a reply with a short narrative and no laws. -/
theorem narrative_truncation_witness :
    sanitizeNarrative (Json.obj [("narrative", Json.str "hello")]) = jsSliceStr "hello" 1500
    ∧ jsLookup (lawsToStore (Json.obj [("narrative", Json.str "hello")])) "narrative"
        = some (Json.str (sanitizeNarrative (Json.obj [("narrative", Json.str "hello")]))) :=
  ⟨(narrative_truncation (Json.obj [("narrative", Json.str "hello")])).2.1 "hello" rfl,
    (narrative_truncation (Json.obj [("narrative", Json.str "hello")])).2.2 rfl⟩

/-- Counterexample for C3: a laws field that is an array (not a
mapping) is kept by the typeof check, its index entries being spread
into the stored mapping, instead of being replaced by the empty
mapping. -/
theorem laws_array_cex :
    lawsToStore (Json.obj [("laws", Json.arr [Json.num 7])])
      = [("narrative", Json.str ""), ("0", Json.num 7)]
    ∧ lawsToStore (Json.obj [("laws", Json.arr [Json.num 7])])
      ≠ [("narrative",
          Json.str (sanitizeNarrative (Json.obj [("laws", Json.arr [Json.num 7])])))] := by
  refine ⟨rfl, ?_⟩
  intro h
  rw [show lawsToStore (Json.obj [("laws", Json.arr [Json.num 7])])
      = [("narrative", Json.str ""), ("0", Json.num 7)] from rfl] at h
  simpa using congrArg List.length h

/-- Claim C3 (amended): the laws field is kept only when it is a
non-null JS object (a JSON mapping, or an array whose indices become
keys), and otherwise replaced by an empty mapping; the sanitized
narrative is stored under the reserved narrative key of that same
mapping unless the kept laws mapping contributes its own narrative
entry, which overrides it; the scenario holds as stated: a reply with
score 150, four topFixes and no laws persists score 100, exactly the
first three topFixes, and a laws mapping that is empty except for the
narrative key. -/
theorem laws_mapping_sanitize (parsed : Json) :
    (jsEntries (sanitizeLaws parsed) = [] →
        lawsToStore parsed = [("narrative", Json.str (sanitizeNarrative parsed))])
    ∧ (∀ kvs, getField parsed "laws" = some (Json.obj kvs) →
        jsLookup kvs "narrative" = none →
        jsLookup (lawsToStore parsed) "narrative"
          = some (Json.str (sanitizeNarrative parsed)))
    ∧ (sanitizeScore (Json.obj [("score", Json.num 150),
          ("topFixes", Json.arr [Json.str "a", Json.str "b", Json.str "c", Json.str "d"]),
          ("narrative", Json.str "...")]) = JsNum.finite 100
      ∧ sanitizeTopFixes (Json.obj [("score", Json.num 150),
          ("topFixes", Json.arr [Json.str "a", Json.str "b", Json.str "c", Json.str "d"]),
          ("narrative", Json.str "...")]) = [Json.str "a", Json.str "b", Json.str "c"]
      ∧ lawsToStore (Json.obj [("score", Json.num 150),
          ("topFixes", Json.arr [Json.str "a", Json.str "b", Json.str "c", Json.str "d"]),
          ("narrative", Json.str "...")]) = [("narrative", Json.str "...")]) := by
  refine ⟨?_, ?_, by decide, rfl, rfl⟩
  · intro h
    unfold lawsToStore
    rw [h]
    rfl
  · intro kvs hk hnone
    have hlaws : sanitizeLaws parsed = Json.obj kvs := by
      simp [sanitizeLaws, hk]
    show jsLookup ((jsEntries (sanitizeLaws parsed)).foldl insertEntry
      [("narrative", Json.str (sanitizeNarrative parsed))]) "narrative" = _
    rw [hlaws]
    simp only [jsEntries]
    rw [jsLookup_foldl_insert _ _ _ (jsLookup_none_forall _ _ hnone)]
    simp [jsLookup]

/-- Witness for C3: a reply without laws stores only the narrative key,
and a laws mapping without its own narrative entry keeps the sanitized
narrative under the reserved key. -/
theorem laws_mapping_sanitize_witness :
    lawsToStore (Json.obj []) = [("narrative", Json.str "")]
    ∧ jsLookup (lawsToStore (Json.obj [("laws", Json.obj [("hicks", Json.str "x")])]))
        "narrative" = some (Json.str "") :=
  ⟨(laws_mapping_sanitize (Json.obj [])).1 rfl,
    (laws_mapping_sanitize (Json.obj [("laws", Json.obj [("hicks", Json.str "x")])])).2.1
      [("hicks", Json.str "x")] rfl rfl⟩

/-- A data URL of 2000011 characters, exceeding the payload cap. -/
def bigUrl : String := ⟨"data:image/".data ++ List.replicate 2000000 'a'⟩

theorem bigUrl_starts : jsStartsWith bigUrl "data:image/" = true := by
  show "data:image/".data.isPrefixOf ("data:image/".data ++ List.replicate 2000000 'a') = true
  exact List.isPrefixOf_iff_prefix.mpr (List.prefix_append _ _)

theorem bigUrl_big : 2000000 < jsLength bigUrl := by
  show 2000000 < ("data:image/".data ++ List.replicate 2000000 'a').length
  rw [List.length_append, List.length_replicate]
  have h11 : ("data:image/".data).length = 11 := by decide
  rw [h11]
  norm_num

/-- Claim C5: the endpoint validates in source order — a missing (or
empty, hence falsy) API key gives status 500 regardless of the payload;
with a key configured, a payload whose imageDataUrl is missing or does
not start with the image data-URL prefix gives status 400; a prefixed
payload longer than 2000000 characters gives status 413; and each of
these error responses carries its error message string. -/
theorem post_validation_order :
    (∀ (b : Except String Payload) (r : ModelReply) (st : List Row),
        (POST none b r st).1.status = 500
        ∧ (POST none b r st).1.error = some "Missing OPENAI_API_KEY in .env")
    ∧ (∀ (b : Except String Payload) (r : ModelReply) (st : List Row),
        (POST (some "") b r st).1.status = 500
        ∧ (POST (some "") b r st).1.error = some "Missing OPENAI_API_KEY in .env")
    ∧ (∀ (key : String) (r : ModelReply) (st : List Row), key ≠ "" →
        (POST (some key) (Except.ok ⟨none⟩) r st).1.status = 400
        ∧ (POST (some key) (Except.ok ⟨none⟩) r st).1.error
            = some "Missing screenshot upload (imageDataUrl)")
    ∧ (∀ (key url : String) (r : ModelReply) (st : List Row), key ≠ "" →
        jsStartsWith url "data:image/" = false →
        (POST (some key) (Except.ok ⟨some url⟩) r st).1.status = 400
        ∧ (POST (some key) (Except.ok ⟨some url⟩) r st).1.error
            = some "Missing screenshot upload (imageDataUrl)")
    ∧ (∀ (key url : String) (r : ModelReply) (st : List Row), key ≠ "" →
        jsStartsWith url "data:image/" = true →
        MAX_IMAGE_DATAURL_CHARS < jsLength url →
        (POST (some key) (Except.ok ⟨some url⟩) r st).1.status = 413
        ∧ (POST (some key) (Except.ok ⟨some url⟩) r st).1.error
            = some "Screenshot is too large. Upload a smaller image (or compress it) and try again.") := by
  refine ⟨fun b r st => ⟨rfl, rfl⟩, fun b r st => ⟨rfl, rfl⟩, ?_, ?_, ?_⟩
  · intro key r st hk
    constructor <;> simp [POST, hk, err400]
  · intro key url r st hk hs
    constructor <;> simp [POST, hk, hs, err400]
  · intro key url r st hk hs hlen
    constructor <;> simp [POST, hk, hs, hlen, err413]

/-- Witness for C5 at a concrete key, payloads and model replies,
with an oversized 2000011 character data URL for the 413 case. -/
theorem post_validation_order_witness :
    (POST none (Except.ok ⟨some "data:image/png;base64,AA"⟩) ModelReply.noContent []).1.status
      = 500
    ∧ (POST (some "sk") (Except.ok ⟨none⟩) ModelReply.noContent []).1.status = 400
    ∧ (POST (some "sk") (Except.ok ⟨some "hello"⟩) ModelReply.noContent []).1.status = 400
    ∧ (POST (some "sk") (Except.ok ⟨some bigUrl⟩) ModelReply.noContent []).1.status = 413 :=
  ⟨(post_validation_order.1 _ _ _).1,
    (post_validation_order.2.2.1 "sk" ModelReply.noContent [] (by decide)).1,
    (post_validation_order.2.2.2.1 "sk" "hello" ModelReply.noContent [] (by decide)
      (by decide)).1,
    (post_validation_order.2.2.2.2 "sk" bigUrl ModelReply.noContent [] (by decide)
      bigUrl_starts bigUrl_big).1⟩

/-- Case analysis of the analyze route: every run either leaves the
store unchanged and answers with a non-200, error-carrying response, or
is a fully validated and parsed run that appends exactly the sanitized
row. -/
theorem post_cases (k : Option String) (b : Except String Payload) (r : ModelReply)
    (st : List Row) :
    ((POST k b r st).2 = st ∧ (POST k b r st).1.status ≠ 200 ∧ (POST k b r st).1.error ≠ none)
    ∨ (∃ key url t p, k = some key ∧ key ≠ "" ∧ b = Except.ok ⟨some url⟩
        ∧ jsStartsWith url "data:image/" = true
        ∧ ¬ MAX_IMAGE_DATAURL_CHARS < jsLength url
        ∧ r = ModelReply.content t (some p) ∧ jsTrim t ≠ ""
        ∧ POST k b r st = (⟨200, none, none, some st.length⟩, st ++ [buildRow url p])) := by
  cases k with
  | none =>
    left
    refine ⟨?_, ?_, ?_⟩ <;> simp [POST]
  | some key =>
    by_cases hk : key = ""
    · subst hk
      left
      refine ⟨?_, ?_, ?_⟩ <;> simp [POST]
    · cases b with
      | error m =>
        left
        refine ⟨?_, ?_, ?_⟩ <;> simp [POST, hk]
      | ok pay =>
        obtain ⟨iurl⟩ := pay
        cases iurl with
        | none =>
          left
          refine ⟨?_, ?_, ?_⟩ <;> simp [POST, hk, err400]
        | some url =>
          by_cases hs : jsStartsWith url "data:image/" = false
          · left
            refine ⟨?_, ?_, ?_⟩ <;> simp [POST, hk, hs, err400]
          · have hs' : jsStartsWith url "data:image/" = true := by simpa using hs
            by_cases hlen : MAX_IMAGE_DATAURL_CHARS < jsLength url
            · left
              refine ⟨?_, ?_, ?_⟩ <;> simp [POST, hk, hs', hlen, err413]
            · cases r with
              | noContent =>
                left
                refine ⟨?_, ?_, ?_⟩ <;> simp [POST, hk, hs', hlen, err500empty]
              | content t parsed =>
                by_cases htrim : jsTrim t = ""
                · left
                  refine ⟨?_, ?_, ?_⟩ <;> simp [POST, hk, hs', hlen, htrim, err500empty]
                · cases parsed with
                  | none =>
                    left
                    refine ⟨?_, ?_, ?_⟩ <;> simp [POST, hk, hs', hlen, htrim]
                  | some p =>
                    cases p <;>
                      first
                      | (left
                         refine ⟨?_, ?_, ?_⟩ <;> simp [POST, hk, hs', hlen, htrim]
                         done)
                      | (right
                         refine ⟨key, url, t, _, rfl, hk, rfl, hs', hlen, rfl, htrim, ?_⟩
                         simp [POST, hk, hs', hlen, htrim])

/-- Claim C4: a report row is written only after the model reply is
fully parsed and sanitized — every run that answers with a non-200
status (validation failure, empty reply, unparsable reply) leaves the
store unchanged and carries an error message; a 200 answer happens only
on a fully parsed reply and appends exactly the sanitized row; and a
non-JSON reply on an otherwise valid request answers 500 with the raw
field carrying the trimmed reply text and no row created. -/
theorem post_no_partial_write (k : Option String) (b : Except String Payload)
    (r : ModelReply) (st : List Row) :
    ((POST k b r st).1.status ≠ 200 →
        (POST k b r st).2 = st ∧ (POST k b r st).1.error ≠ none)
    ∧ ((POST k b r st).1.status = 200 →
        ∃ key url t p, k = some key ∧ key ≠ "" ∧ b = Except.ok ⟨some url⟩
          ∧ r = ModelReply.content t (some p) ∧ jsTrim t ≠ ""
          ∧ (POST k b r st).2 = st ++ [buildRow url p])
    ∧ (∀ key url t, k = some key → key ≠ "" → b = Except.ok ⟨some url⟩ →
        jsStartsWith url "data:image/" = true →
        ¬ MAX_IMAGE_DATAURL_CHARS < jsLength url →
        r = ModelReply.content t none → jsTrim t ≠ "" →
        (POST k b r st).1.status = 500 ∧ (POST k b r st).1.raw = some (jsTrim t)
        ∧ (POST k b r st).2 = st) := by
  refine ⟨?_, ?_, ?_⟩
  · intro hne
    rcases post_cases k b r st with ⟨h1, _, h3⟩ | ⟨key, url, t, p, _, _, _, _, _, _, _, hpost⟩
    · exact ⟨h1, h3⟩
    · exact absurd (by rw [hpost]) hne
  · intro h200
    rcases post_cases k b r st with ⟨_, h2, _⟩ | ⟨key, url, t, p, hkey, hk, hb, _, _, hr, ht, hpost⟩
    · exact absurd h200 h2
    · exact ⟨key, url, t, p, hkey, hk, hb, hr, ht, by rw [hpost]⟩
  · intro key url t hkey hk hb hs hlen hr ht
    subst hkey hb hr
    refine ⟨?_, ?_, ?_⟩ <;> simp [POST, hk, hs, hlen, ht]

/-- Witness for C4: a failing run (empty model reply) creates no row,
a successful run appends the sanitized row, and a non-JSON reply on a
valid request answers 500 with the raw text echoed. -/
theorem post_no_partial_write_witness :
    (POST (some "sk") (Except.ok ⟨some "data:image/png;base64,AA"⟩) ModelReply.noContent []).2
      = []
    ∧ (POST (some "sk") (Except.ok ⟨some "data:image/png;base64,AA"⟩)
        (ModelReply.content "7" (some (Json.num 7))) []).2
        = [] ++ [buildRow "data:image/png;base64,AA" (Json.num 7)]
    ∧ (POST (some "sk") (Except.ok ⟨some "data:image/png;base64,AA"⟩)
        (ModelReply.content " oops " none) []).1.raw = some (jsTrim " oops ") :=
  ⟨((post_no_partial_write (some "sk") (Except.ok ⟨some "data:image/png;base64,AA"⟩)
      ModelReply.noContent []).1 (by decide)).1,
    by
      rcases (post_no_partial_write (some "sk") (Except.ok ⟨some "data:image/png;base64,AA"⟩)
        (ModelReply.content "7" (some (Json.num 7))) []).2.1 (by decide) with
        ⟨key, url, t, p, hkey, _, hb, hr, _, hpost⟩
      cases hkey
      cases hb
      cases hr
      exact hpost,
    ((post_no_partial_write (some "sk") (Except.ok ⟨some "data:image/png;base64,AA"⟩)
      (ModelReply.content " oops " none) []).2.2 "sk" "data:image/png;base64,AA" " oops "
      rfl (by decide) rfl (by decide) (by decide) rfl (by decide)).2.1⟩

/-- Claim C7: a report created with a given score, top fixes, laws and
narrative, when loaded by the identifier returned at creation, yields
exactly the stored row, and the renderer extracts those exact values
unchanged — the stored score, the narrative from the reserved key, the
top fixes in order, and the law entries as stored (the page shows at
most the first three cards).  Reads are pure lookups, so loading alters
nothing.  The hypotheses say the law entries use distinct keys and do
not use the reserved narrative key, and that there is at least one top
fix (an empty list renders the placeholder of C9 instead). -/
theorem report_round_trip (store : List Row) (score : JsNum) (fixes : List Json)
    (laws : List (String × Json)) (n img : String) (row : Row)
    (hnarr : jsLookup laws "narrative" = none)
    (hnodup : (laws.map Prod.fst).Nodup)
    (hfx : fixes ≠ [])
    (hrow : row = ⟨img, "", 0, 0, 0, score, fixes, ("narrative", Json.str n) :: laws⟩) :
    findUnique (createReport store row).2 (createReport store row).1 = some row
    ∧ ResultsPage (createReport store row).2 (createReport store row).1
        = ResultsView.report ⟨score, n, FixesBlock.fixes fixes, laws.take 3⟩ := by
  have hget : findUnique (createReport store row).2 (createReport store row).1 = some row := by
    show (store ++ [row])[store.length]? = some row
    exact List.getElem?_concat_length _ _
  refine ⟨hget, ?_⟩
  rw [ResultsPage, hget]
  subst hrow
  have hkeys : ∀ kv ∈ laws, kv.1 ≠ "narrative" := jsLookup_none_forall laws "narrative" hnarr
  have hfilter : ((("narrative", Json.str n) :: laws).filter
      (fun kv => decide (kv.1 ≠ "narrative"))) = laws := by
    rw [List.filter_cons_of_neg]
    · exact List.filter_eq_self.mpr (fun kv hkv => by simpa using hkeys kv hkv)
    · simp
  have hfold : laws.foldl insertEntry [] = laws := by
    have := foldl_insert_append laws [] (by intro p hp; cases hp) hnodup
    simpa using this
  unfold renderReport
  simp only [hfilter, hfold]
  have hnarrget : renderNarrative (("narrative", Json.str n) :: laws) = n := by
    simp [renderNarrative, jsLookup]
  rw [hnarrget]
  have hempty : fixes.isEmpty = false := by
    cases fixes with
    | nil => exact absurd rfl hfx
    | cons a l => rfl
  simp [hempty]

/-- Witness for C7 at a concrete store and report. -/
theorem report_round_trip_witness :
    findUnique (createReport [] ⟨"data:image/png;base64,AA", "", 0, 0, 0, JsNum.finite 90,
        [Json.str "f1"], ("narrative", Json.str "great") :: [("hicks", Json.str "x")]⟩).2
        (createReport [] ⟨"data:image/png;base64,AA", "", 0, 0, 0, JsNum.finite 90,
        [Json.str "f1"], ("narrative", Json.str "great") :: [("hicks", Json.str "x")]⟩).1
      = some ⟨"data:image/png;base64,AA", "", 0, 0, 0, JsNum.finite 90,
        [Json.str "f1"], ("narrative", Json.str "great") :: [("hicks", Json.str "x")]⟩
    ∧ ResultsPage (createReport [] ⟨"data:image/png;base64,AA", "", 0, 0, 0, JsNum.finite 90,
        [Json.str "f1"], ("narrative", Json.str "great") :: [("hicks", Json.str "x")]⟩).2
        (createReport [] ⟨"data:image/png;base64,AA", "", 0, 0, 0, JsNum.finite 90,
        [Json.str "f1"], ("narrative", Json.str "great") :: [("hicks", Json.str "x")]⟩).1
      = ResultsView.report ⟨JsNum.finite 90, "great", FixesBlock.fixes [Json.str "f1"],
        [("hicks", Json.str "x")].take 3⟩ :=
  report_round_trip [] (JsNum.finite 90) [Json.str "f1"] [("hicks", Json.str "x")]
    "great" "data:image/png;base64,AA" _ rfl (by simp) (by simp) rfl
